import Mathlib

/- Verification of the sdc11073 core: the SCO (service-controlled operations)
   execution engine (sdc11073/sdcdevice/sco.py, sdcservicesimpl.py), the
   descriptor-container layer (sdc11073/mdib/descriptorcontainers.py) and the
   role providers (sdc11073/roles/providerbase.py, contextprovider.py),
   shallowly embedded in Lean. -/

namespace Sdc

/-- pmtypes.InvocationState: the invocation state machine values. -/
inductive InvocationState where
  | WAIT
  | START
  | CANCELLED
  | CANCELLED_MANUALLY
  | FINISHED
  | FINISHED_MOD
  | FAILED
deriving DecidableEq, Repr

/-- A state is terminal when it is one of the outcome states
(everything except WAIT and START). -/
def isTerminal : InvocationState → Bool
  | InvocationState.WAIT => false
  | InvocationState.START => false
  | _ => true

/-- The data of an OperationDefinition that the engine inspects:
its handle and its OP_QNAME wire tag (sco.py class attributes). -/
structure Operation where
  handle : String
  opQName : String
deriving DecidableEq, Repr

/-- The part of a soap request envelope read by `_handle_operation_request`:
the msg:OperationHandleRef text values and the tag of the first body child. -/
structure Request where
  operationHandleRefs : List String
  bodyTag : String
deriving DecidableEq, Repr

/-- The parsed argument passed alongside the request (operation_request). -/
structure OperationRequest where
  argument : String
deriving DecidableEq, Repr

/-- The behaviour of `operation.execute_operation` for each operation:
normal return or a raised exception (its text). -/
def Exec : Type :=
  Operation → Request → OperationRequest → Except String Unit

/-- One call of `subscriptions_mgr.notify_operation` as observed by the
report sink: operation object, transaction id, invocation state and the
optional error / error_message arguments. -/
structure Notification where
  operation : Operation
  transactionId : Nat
  invocationState : InvocationState
  error : Option String
  errorMessage : Option String
deriving DecidableEq, Repr

/-- Helper to build a Notification. -/
def mkNotification (operation : Operation) (transactionId : Nat)
    (invocationState : InvocationState)
    (error errorMessage : Option String) : Notification :=
  { operation := operation, transactionId := transactionId,
    invocationState := invocationState, error := error,
    errorMessage := errorMessage }

/-- An element of `_operations_queue`: either the 'stop_sco' sentinel or the
tuple (transaction_id, operation, request, operation_request). -/
inductive QueueEntry where
  | stop
  | item (transactionId : Nat) (operation : Operation)
      (request : Request) (operationRequest : OperationRequest)
deriving DecidableEq, Repr

/-- The transaction id carried by a queue entry, none for the sentinel. -/
def entryTransactionId : QueueEntry → Option Nat
  | QueueEntry.stop => none
  | QueueEntry.item transactionId _ _ _ => some transactionId

/-- The mutable data of `_OperationsWorker`: the next transaction id
(initialized to 1 in __init__) and the queued entries. -/
structure WorkerState where
  transactionId : Nat := 1
  queue : List QueueEntry := []
deriving DecidableEq, Repr

/-- A worker as freshly constructed by `start_worker`. -/
def initialWorker : WorkerState := {}

/-- `_OperationsWorker.enqueue_operation`: under the transaction-id lock the
current id is taken and the counter incremented, then the tuple carrying that
id is put on the queue, and the id is returned to the caller. -/
def enqueue_operation (s : WorkerState) (operation : Operation)
    (request : Request) (operationRequest : OperationRequest) :
    Nat × WorkerState :=
  let transactionId := s.transactionId
  (transactionId,
   { transactionId := transactionId + 1,
     queue := s.queue ++
       [QueueEntry.item transactionId operation request operationRequest] })

/-- A sequence of `enqueue_operation` calls; returns the list of returned
transaction ids and the final worker state. -/
def enqueueAll :
    WorkerState → List (Operation × Request × OperationRequest) →
    List Nat × WorkerState
  | s, [] => ([], s)
  | s, (operation, request, operationRequest) :: rs =>
      let p := enqueue_operation s operation request operationRequest
      let q := enqueueAll p.2 rs
      (p.1 :: q.1, q.2)

/-- The per-item body of `_OperationsWorker.run`: emit WAIT, emit START,
invoke `execute_operation`; on normal return emit FINISHED, on a raised
exception emit FAILED with error 'Oth' and a message derived from the
exception text. -/
def processItem (exec : Exec) (transactionId : Nat) (operation : Operation)
    (request : Request) (operationRequest : OperationRequest) :
    List Notification :=
  [mkNotification operation transactionId InvocationState.WAIT none none,
   mkNotification operation transactionId InvocationState.START none none] ++
  (match exec operation request operationRequest with
   | Except.ok _ =>
       [mkNotification operation transactionId InvocationState.FINISHED
          none none]
   | Except.error ex =>
       [mkNotification operation transactionId InvocationState.FAILED
          (some "Oth") (some ex)])

/-- `_OperationsWorker.run` over the queued entries: process items in order,
returning at the stop sentinel; the notifications of all items are
concatenated in processing order. -/
def workerRun (exec : Exec) : List QueueEntry → List Notification
  | [] => []
  | QueueEntry.stop :: _ => []
  | QueueEntry.item transactionId operation request operationRequest ::
      rest =>
      processItem exec transactionId operation request operationRequest ++
        workerRun exec rest

/-- `ScoOperationsRegistry.get_operation_by_handle`: plain lookup among the
registered operations. -/
def get_operation_by_handle (registered : List Operation) (h : String) :
    Option Operation :=
  registered.find? (fun operation => operation.handle = h)

/-- The InvocationInfo part of the synchronous response built by
`_handle_operation_request`. -/
structure InvocationResponse where
  transactionIdText : String
  invocationState : InvocationState
  invocationError : Option String
  invocationErrorMessage : Option String
deriving DecidableEq, Repr

/-- The error branch of `_handle_operation_request`: InvocationState FAILED,
TransactionId 0, InvocationError 'Inv' (INVALID_VALUE). -/
def failedResponse (msg : String) : InvocationResponse :=
  { transactionIdText := "0", invocationState := InvocationState.FAILED,
    invocationError := some "Inv", invocationErrorMessage := some msg }

/-- `_handle_operation_request` (sdcservicesimpl.py): resolve the operation
handle; unknown handle, wire-tag mismatch or a missing handle ref short
circuits with a FAILED / INVALID_VALUE response and the worker untouched;
otherwise the operation is enqueued and the returned transaction id is put
in a WAIT response. -/
def handle_operation_request (registered : List Operation)
    (worker : WorkerState) (request : Request)
    (operationRequest : OperationRequest) :
    InvocationResponse × WorkerState :=
  match request.operationHandleRefs with
  | [operationHandleRef] =>
    match get_operation_by_handle registered operationHandleRef with
    | none =>
        (failedResponse ("operation not known: " ++ operationHandleRef),
         worker)
    | some operation =>
        if request.bodyTag ≠ operation.opQName then
          (failedResponse ("mismatch Operation " ++ operationHandleRef),
           worker)
        else
          let p := enqueue_operation worker operation request
            operationRequest
          ({ transactionIdText := toString p.1,
             invocationState := InvocationState.WAIT,
             invocationError := none, invocationErrorMessage := none },
           p.2)
  | _ => (failedResponse "no OperationHandleRef found in Request", worker)

/-- The NODETYPE discriminants of the concrete descriptor-container variants
of descriptorcontainers.py (the values of the _name_class_lookup table). -/
inductive NodeType where
  | Mds
  | Vmd
  | Channel
  | Clock
  | Battery
  | Sco
  | SystemContext
  | PatientContext
  | LocationContext
  | WorkflowContext
  | OperatorContext
  | MeansContext
  | EnsembleContext
  | AlertSystem
  | AlertCondition
  | LimitAlertCondition
  | AlertSignal
  | NumericMetric
  | StringMetric
  | EnumStringMetric
  | RealTimeSampleArrayMetric
  | DistributionSampleArrayMetric
  | SetValueOperation
  | SetStringOperation
  | SetContextStateOperation
  | SetMetricStateOperation
  | SetComponentStateOperation
  | SetAlertStateOperation
  | ActivateOperation
deriving DecidableEq, Repr

/-- The `isMetricDescriptor` class flag: true exactly for the variants
derived from AbstractMetricDescriptorContainer. -/
def isMetricDescriptor : NodeType → Bool
  | NodeType.NumericMetric => true
  | NodeType.StringMetric => true
  | NodeType.EnumStringMetric => true
  | NodeType.RealTimeSampleArrayMetric => true
  | NodeType.DistributionSampleArrayMetric => true
  | _ => false

/-- One entry of a `_children` declaration: a ChildElem (a sub-element that
is an own property) or a ChildConts (a group of child descriptor
containers, with the permitted NODETYPE values). -/
inductive ChildDecl where
  | elem (childQName : String)
  | conts (childQName : String) (nodeTypes : List NodeType)
deriving DecidableEq, Repr

/-- The child_qname of a declaration entry. -/
def declQName : ChildDecl → String
  | ChildDecl.elem q => q
  | ChildDecl.conts q _ => q

/-- `_children` of AbstractDescriptorContainer. -/
def abstractDescriptorChildren : List ChildDecl :=
  [ChildDecl.elem "Extension", ChildDecl.elem "Type"]

/-- Declarations accumulated along AbstractDeviceComponentDescriptorContainer. -/
def deviceComponentChildren : List ChildDecl :=
  abstractDescriptorChildren ++ [ChildDecl.elem "ProductionSpecification"]

/-- Declarations accumulated along
AbstractComplexDeviceComponentDescriptorContainer. -/
def complexDeviceComponentChildren : List ChildDecl :=
  deviceComponentChildren ++
    [ChildDecl.conts "AlertSystem" [NodeType.AlertSystem],
     ChildDecl.conts "Sco" [NodeType.Sco]]

/-- Declarations accumulated along AbstractMetricDescriptorContainer. -/
def abstractMetricChildren : List ChildDecl :=
  abstractDescriptorChildren ++
    [ChildDecl.elem "Unit", ChildDecl.elem "BodySite",
     ChildDecl.elem "Relation"]

/-- Declarations accumulated along AlertConditionDescriptorContainer. -/
def alertConditionChildren : List ChildDecl :=
  abstractDescriptorChildren ++
    [ChildDecl.elem "Source", ChildDecl.elem "CauseInfo"]

/-- Declarations accumulated along AbstractSetStateOperationDescriptor. -/
def setStateOperationChildren : List ChildDecl :=
  abstractDescriptorChildren ++ [ChildDecl.elem "ModifiableData"]

/-- `sorted_child_declarations`: the _children entries collected along the
reversed method-resolution order of the variant's class. -/
def sorted_child_declarations : NodeType → List ChildDecl
  | NodeType.Mds =>
      complexDeviceComponentChildren ++
        [ChildDecl.elem "MetaData",
         ChildDecl.conts "SystemContext" [NodeType.SystemContext],
         ChildDecl.conts "Clock" [NodeType.Clock],
         ChildDecl.conts "Battery" [NodeType.Battery],
         ChildDecl.elem "ApprovedJurisdictions",
         ChildDecl.conts "Vmd" [NodeType.Vmd]]
  | NodeType.Vmd =>
      complexDeviceComponentChildren ++
        [ChildDecl.conts "Channel" [NodeType.Channel]]
  | NodeType.Channel =>
      deviceComponentChildren ++
        [ChildDecl.conts "Metric"
          [NodeType.NumericMetric, NodeType.StringMetric,
           NodeType.EnumStringMetric, NodeType.RealTimeSampleArrayMetric,
           NodeType.DistributionSampleArrayMetric]]
  | NodeType.Clock =>
      deviceComponentChildren ++ [ChildDecl.elem "TimeProtocol"]
  | NodeType.Battery =>
      deviceComponentChildren ++
        [ChildDecl.elem "CapacityFullCharge",
         ChildDecl.elem "CapacitySpecified",
         ChildDecl.elem "VoltageSpecified"]
  | NodeType.Sco =>
      deviceComponentChildren ++
        [ChildDecl.conts "Operation"
          [NodeType.SetValueOperation, NodeType.SetStringOperation,
           NodeType.SetContextStateOperation,
           NodeType.SetMetricStateOperation,
           NodeType.SetComponentStateOperation,
           NodeType.SetAlertStateOperation, NodeType.ActivateOperation]]
  | NodeType.SystemContext =>
      deviceComponentChildren ++
        [ChildDecl.conts "PatientContext" [NodeType.PatientContext],
         ChildDecl.conts "LocationContext" [NodeType.LocationContext],
         ChildDecl.conts "EnsembleContext" [NodeType.EnsembleContext],
         ChildDecl.conts "OperatorContext" [NodeType.OperatorContext],
         ChildDecl.conts "WorkflowContext" [NodeType.WorkflowContext],
         ChildDecl.conts "MeansContext" [NodeType.MeansContext]]
  | NodeType.PatientContext => abstractDescriptorChildren
  | NodeType.LocationContext => abstractDescriptorChildren
  | NodeType.WorkflowContext => abstractDescriptorChildren
  | NodeType.OperatorContext => abstractDescriptorChildren
  | NodeType.MeansContext => abstractDescriptorChildren
  | NodeType.EnsembleContext => abstractDescriptorChildren
  | NodeType.AlertSystem =>
      abstractDescriptorChildren ++
        [ChildDecl.conts "AlertCondition"
          [NodeType.AlertCondition, NodeType.LimitAlertCondition],
         ChildDecl.conts "AlertSignal" [NodeType.AlertSignal]]
  | NodeType.AlertCondition => alertConditionChildren
  | NodeType.LimitAlertCondition =>
      alertConditionChildren ++ [ChildDecl.elem "MaxLimits"]
  | NodeType.AlertSignal => abstractDescriptorChildren
  | NodeType.NumericMetric =>
      abstractMetricChildren ++ [ChildDecl.elem "TechnicalRange"]
  | NodeType.StringMetric => abstractMetricChildren
  | NodeType.EnumStringMetric =>
      abstractMetricChildren ++ [ChildDecl.elem "AllowedValue"]
  | NodeType.RealTimeSampleArrayMetric =>
      abstractMetricChildren ++ [ChildDecl.elem "TechnicalRange"]
  | NodeType.DistributionSampleArrayMetric =>
      abstractMetricChildren ++
        [ChildDecl.elem "TechnicalRange", ChildDecl.elem "DomainUnit",
         ChildDecl.elem "DistributionRange"]
  | NodeType.SetValueOperation => abstractDescriptorChildren
  | NodeType.SetStringOperation => abstractDescriptorChildren
  | NodeType.SetContextStateOperation => setStateOperationChildren
  | NodeType.SetMetricStateOperation => setStateOperationChildren
  | NodeType.SetComponentStateOperation => setStateOperationChildren
  | NodeType.SetAlertStateOperation => setStateOperationChildren
  | NodeType.ActivateOperation =>
      setStateOperationChildren ++ [ChildDecl.elem "Argument"]

/-- The declared child element names of a variant, in declaration order. -/
def declaredQNames (nt : NodeType) : List String :=
  (sorted_child_declarations nt).map declQName

/-- A child descriptor container as seen by addChild / rmChild /
materialization: its NODETYPE and handle. -/
structure ChildDescriptor where
  nodeType : NodeType
  handle : String
deriving DecidableEq, Repr

/-- A descriptor container: NODETYPE, handle, parent handle and the
`_child_containers_by_type` defaultdict (keys in insertion order). -/
structure DescriptorContainer where
  nodeType : NodeType
  handle : String
  parentHandle : Option String
  childContainersByType : List (NodeType × List ChildDescriptor)
deriving DecidableEq, Repr

/-- Append to `_child_containers_by_type[NODETYPE]` (defaultdict: a fresh
key is created at the end of the key order). -/
def appendByType :
    List (NodeType × List ChildDescriptor) → ChildDescriptor →
    List (NodeType × List ChildDescriptor)
  | [], c => [(c.nodeType, [c])]
  | (nt, cs) :: rest, c =>
      if nt = c.nodeType then (nt, cs ++ [c]) :: rest
      else (nt, cs) :: appendByType rest c

/-- `AbstractDescriptorContainer.addChild`: append the child under its
NODETYPE; `AbstractMetricDescriptorContainer.addChild` overrides this and
raises ValueError unconditionally. -/
def addChild (d : DescriptorContainer) (child : ChildDescriptor) :
    Except String DescriptorContainer :=
  if isMetricDescriptor d.nodeType then
    Except.error "Metric can not have children"
  else
    Except.ok
      { d with childContainersByType :=
          appendByType d.childContainersByType child }

/-- The python loop `for container in tag_specific_list: if
container.handle == h: tag_specific_list.remove(container)`: removing the
current element makes the iterator skip the element that slides into its
place. -/
def pyRemoveMatching : List ChildDescriptor → String → List ChildDescriptor
  | [], _ => []
  | c :: rest, h =>
      if c.handle = h then
        match rest with
        | [] => []
        | c2 :: rest2 => c2 :: pyRemoveMatching rest2 h
      else c :: pyRemoveMatching rest h

/-- Update of the defaultdict entry for a NODETYPE during rmChild (a lookup
of a missing key creates it holding the empty list). -/
def rmFromLists :
    List (NodeType × List ChildDescriptor) → NodeType → String →
    List (NodeType × List ChildDescriptor)
  | [], nt, _ => [(nt, [])]
  | (nt0, cs) :: rest, nt, h =>
      if nt0 = nt then (nt0, pyRemoveMatching cs h) :: rest
      else (nt0, cs) :: rmFromLists rest nt h

/-- `AbstractDescriptorContainer.rmChild`: remove children with the given
handle from the tag-specific list; the metric override raises ValueError
unconditionally. -/
def rmChild (d : DescriptorContainer) (child : ChildDescriptor) :
    Except String DescriptorContainer :=
  if isMetricDescriptor d.nodeType then
    Except.error "Metric can not have children"
  else
    Except.ok
      { d with childContainersByType :=
          rmFromLists d.childContainersByType child.nodeType child.handle }

/-- First ChildConts declaration whose node_types contain the child's
NODETYPE (ChildElem entries are skipped, as in
`_tag_name_for_child_descriptor`). -/
def findChildTag : List ChildDecl → NodeType → Option String
  | [], _ => none
  | ChildDecl.elem _ :: rest, nt => findChildTag rest nt
  | ChildDecl.conts q types :: rest, nt =>
      if nt ∈ types then some q else findChildTag rest nt

/-- `_tag_name_for_child_descriptor`: the sub-element name for a child
descriptor's NODETYPE; raises ValueError when no declaration matches. -/
def tag_name_for_child_descriptor (parent childType : NodeType) :
    Except String String :=
  match findChildTag (sorted_child_declarations parent) childType with
  | some q => Except.ok q
  | none => Except.error "not known in child declarations"

/-- A child node of the materialized etree element: its tag and the child's
handle attribute. -/
structure ChildNode where
  tag : String
  handle : String
deriving DecidableEq, Repr

/-- The child-appending loop of `mk_descriptor_node` (connect_child_
descriptors): each stored child list is appended under the tag resolved by
`_tag_name_for_child_descriptor`. -/
def connectChildNodes (parent : NodeType) :
    List (NodeType × List ChildDescriptor) →
    Except String (List ChildNode)
  | [] => Except.ok []
  | (nt, cs) :: rest => do
      let tag ← tag_name_for_child_descriptor parent nt
      let tailNodes ← connectChildNodes parent rest
      Except.ok (cs.map (fun c => ChildNode.mk tag c.handle) ++ tailNodes)

/-- The reordering loop of `_sort_child_nodes`: for each declared name in
order, append the nodes carrying that tag. -/
def gatherByTag (qnames : List String) (nodes : List ChildNode) :
    List ChildNode :=
  match qnames with
  | [] => []
  | q :: qs =>
      nodes.filter (fun n => n.tag == q) ++ gatherByTag qs nodes

/-- `_sort_child_nodes`: raises ValueError when a child node carries a tag
that is not among the declared names, otherwise rebuilds the child list in
declaration order. -/
def sort_child_nodes (parent : NodeType) (nodes : List ChildNode) :
    Except String (List ChildNode) :=
  let qnames := declaredQNames parent
  let notInOrder := nodes.filter (fun n => !(qnames.contains n.tag))
  if notInOrder.isEmpty then Except.ok (gatherByTag qnames nodes)
  else Except.error "not in Order"

/-- `mk_descriptor_node` restricted to what it does with child
descriptors: connect all stored children, then sort them into declaration
order (either step may raise). -/
def mk_descriptor_node_children (d : DescriptorContainer) :
    Except String (List ChildNode) := do
  let appended ← connectChildNodes d.nodeType d.childContainersByType
  sort_child_nodes d.nodeType appended

/-- pmtypes.ContextAssociation. -/
inductive ContextAssociation where
  | NO_ASSOCIATION
  | PRE_ASSOCIATION
  | ASSOCIATED
  | DISASSOCIATED
deriving DecidableEq, Repr

/-- A context-state container as handled by
GenericContextProvider._set_context_state: the engine-owned association,
binding and version fields, plus the remaining declared fields abstracted
as name-value pairs (payload). -/
structure ContextStateContainer where
  descriptorHandle : String
  Handle : String
  ContextAssociation : ContextAssociation
  BindingMdibVersion : Option Nat
  UnbindingMdibVersion : Option Nat
  BindingStartTime : Option Nat
  BindingEndTime : Option Nat
  StateVersion : Nat
  payload : List (String × String)
deriving DecidableEq, Repr

/-- The mdib data read and written by the context provider: the
context-state store, the current mdib version, and the clock value
observed by time.time() during the operation. -/
structure ContextMdib where
  contextStates : List ContextStateContainer
  mdibVersion : Nat
  currentTime : Nat
deriving DecidableEq, Repr

/-- The skipped_properties list passed by _set_context_state to
update_from_other_container. -/
def contextSkippedProperties : List String :=
  ["ContextAssociation", "BindingMdibVersion", "UnbindingMdibVersion",
   "BindingStartTime", "BindingEndTime", "StateVersion"]

/-- A field copied by the merge: the old value when the field name is
skipped, the other container's value otherwise. -/
def mergeField {α : Type} (skipped : List String) (name : String)
    (oldVal newVal : α) : α :=
  if skipped.contains name then oldVal else newVal

/-- Modelled from the spec: `ContainerBase._update_from_other`
(containerbase.py) is not among the sources; per the spec the update is a
field-level merge that copies every declared field from the other
container except those named in skipped_properties. The payload holds the
remaining declared fields, whose names never occur in the skip list. -/
def update_from_other_container (old other : ContextStateContainer)
    (skipped : List String) : ContextStateContainer :=
  { descriptorHandle :=
      mergeField skipped "descriptorHandle" old.descriptorHandle
        other.descriptorHandle,
    Handle := mergeField skipped "Handle" old.Handle other.Handle,
    ContextAssociation :=
      mergeField skipped "ContextAssociation" old.ContextAssociation
        other.ContextAssociation,
    BindingMdibVersion :=
      mergeField skipped "BindingMdibVersion" old.BindingMdibVersion
        other.BindingMdibVersion,
    UnbindingMdibVersion :=
      mergeField skipped "UnbindingMdibVersion" old.UnbindingMdibVersion
        other.UnbindingMdibVersion,
    BindingStartTime :=
      mergeField skipped "BindingStartTime" old.BindingStartTime
        other.BindingStartTime,
    BindingEndTime :=
      mergeField skipped "BindingEndTime" old.BindingEndTime
        other.BindingEndTime,
    StateVersion :=
      mergeField skipped "StateVersion" old.StateVersion
        other.StateVersion,
    payload := other.payload }

/-- The disassociation loop body of _set_context_state: a sibling state
that is not yet disassociated, or whose UnbindingMdibVersion is unset, is
set to DISASSOCIATED, and the unbinding version and binding end time are
filled in only when UnbindingMdibVersion was unset. -/
def disassociateOld (mdibVersion currentTime : Nat)
    (st : ContextStateContainer) : ContextStateContainer :=
  if st.ContextAssociation ≠ ContextAssociation.DISASSOCIATED ∨
      st.UnbindingMdibVersion = none then
    { st with
      ContextAssociation := ContextAssociation.DISASSOCIATED,
      UnbindingMdibVersion :=
        if st.UnbindingMdibVersion = none then some mdibVersion
        else st.UnbindingMdibVersion,
      BindingEndTime :=
        if st.UnbindingMdibVersion = none then some currentTime
        else st.BindingEndTime }
  else st

/-- The loop body of `_set_context_state` for one proposed state: a
proposed state whose Handle equals its descriptorHandle is a new context
state (generated handle, binding fields, ASSOCIATED, added; all sibling
states of the descriptor run through the disassociation loop); a proposed
state with a different Handle updates the state found under that handle
(ValueError when absent) through the skipping merge. -/
def setContextStateOne (m : ContextMdib)
    (proposed : ContextStateContainer) : Except String ContextMdib :=
  if proposed.descriptorHandle ≠ proposed.Handle then
    match m.contextStates.find? (fun st => st.Handle == proposed.Handle)
      with
    | none =>
        Except.error ("handle " ++ proposed.Handle ++ " not found")
    | some _ =>
        Except.ok
          { m with contextStates :=
              m.contextStates.map (fun st =>
                if st.Handle == proposed.Handle then
                  update_from_other_container st proposed
                    contextSkippedProperties
                else st) }
  else
    let handleString :=
      proposed.descriptorHandle ++ "_" ++ toString m.mdibVersion
    let newState :=
      { proposed with
        Handle := handleString,
        BindingMdibVersion := some m.mdibVersion,
        BindingStartTime := some m.currentTime,
        ContextAssociation := ContextAssociation.ASSOCIATED }
    Except.ok
      { m with contextStates :=
          (m.contextStates.map (fun st =>
            if st.descriptorHandle == proposed.descriptorHandle then
              disassociateOld m.mdibVersion m.currentTime st
            else st)) ++ [newState] }

/-- `GenericContextProvider._set_context_state`: the transaction processes
each proposed state in turn; a raised ValueError aborts the whole
operation. -/
def set_context_state (m : ContextMdib)
    (proposals : List ContextStateContainer) : Except String ContextMdib :=
  match proposals with
  | [] => Except.ok m
  | p :: ps => do
      let m2 ← setContextStateOne m p
      set_context_state m2 ps

/-- Postcondition of the disassociation loop for one pre-existing context
state: states of other descriptors are untouched; a sibling that was not
disassociated becomes disassociated; the unbinding version and binding end
time are filled in exactly when the unbinding version was unset, and are
left as they were otherwise; all other fields are unchanged. -/
def siblingOutcome (mdibVersion currentTime : Nat)
    (descriptorHandle : String)
    (old new : ContextStateContainer) : Prop :=
  (old.descriptorHandle ≠ descriptorHandle → new = old) ∧
  (old.descriptorHandle = descriptorHandle →
    (old.ContextAssociation ≠ ContextAssociation.DISASSOCIATED →
      new.ContextAssociation = ContextAssociation.DISASSOCIATED) ∧
    (old.UnbindingMdibVersion = none →
      new.UnbindingMdibVersion = some mdibVersion ∧
      new.BindingEndTime = some currentTime) ∧
    (old.UnbindingMdibVersion ≠ none →
      new.UnbindingMdibVersion = old.UnbindingMdibVersion ∧
      new.BindingEndTime = old.BindingEndTime) ∧
    new.Handle = old.Handle ∧
    new.descriptorHandle = old.descriptorHandle ∧
    new.BindingMdibVersion = old.BindingMdibVersion ∧
    new.BindingStartTime = old.BindingStartTime ∧
    new.StateVersion = old.StateVersion ∧
    new.payload = old.payload)

/-- pmtypes.MetricCategory. -/
inductive MetricCategory where
  | UNSPECIFIED
  | MEASUREMENT
  | CALCULATION
  | SETTING
  | PRESETTING
  | RECOMMENDATION
deriving DecidableEq, Repr

/-- pmtypes.MeasurementValidity. -/
inductive MeasurementValidity where
  | VALID
  | VALIDATED_DATA
  | MEASUREMENT_ONGOING
  | QUESTIONABLE
  | CALIBRATION_ONGOING
  | INVALID
  | OVERFLOW
  | UNDERFLOW
  | NA
deriving DecidableEq, Repr

/-- A metric value: the assigned value and the quality validity, each
unset until written. -/
structure MetricValue (α : Type) where
  Value : Option α
  Validity : Option MeasurementValidity
deriving DecidableEq, Repr

/-- Modelled from the spec: `mk_metric_value` (statecontainers.py) is not
among the sources; per the spec it creates the metric value object for a
state that has none, with no fields assigned yet. -/
def mk_metric_value {α : Type} : MetricValue α :=
  { Value := none, Validity := none }

/-- A metric state: the descriptor it correlates to and its optional
metric value. -/
structure MetricState (α : Type) where
  descriptorHandle : String
  metricValue : Option (MetricValue α)
deriving DecidableEq, Repr

/-- The descriptor data read by the provider: the handle, the
OperationTarget attribute of operation descriptors and the MetricCategory
attribute of metric descriptors. -/
structure ProviderDescriptor where
  handle : String
  OperationTarget : Option String
  MetricCategory : MetricCategory
deriving DecidableEq, Repr

/-- The mdib data used by the numeric / string setters. -/
structure MetricMdib (α : Type) where
  descriptions : List ProviderDescriptor
  states : List (MetricState α)
deriving DecidableEq, Repr

/-- An operation instance with its observable current_value slot. -/
structure OperationInstance (α : Type) where
  handle : String
  currentValue : Option α
deriving DecidableEq, Repr

/-- `descriptions.handle.get_one`: raises when the handle is unknown. -/
def get_one_description {α : Type} (m : MetricMdib α) (h : String) :
    Except String ProviderDescriptor :=
  match m.descriptions.find? (fun d => d.handle == h) with
  | some d => Except.ok d
  | none => Except.error ("handle " ++ h ++ " not found")

/-- `ProviderRole._get_operation_target_handle`: the OperationTarget of
the operation's own descriptor. -/
def get_operation_target_handle {α : Type} (m : MetricMdib α)
    (operationHandle : String) : Except String String := do
  let d ← get_one_description m operationHandle
  match d.OperationTarget with
  | some t => Except.ok t
  | none => Except.error "no OperationTarget"

/-- `mgr.get_state`: the state correlated to a descriptor handle; raises
when absent. -/
def get_metric_state {α : Type} (m : MetricMdib α) (h : String) :
    Except String (MetricState α) :=
  match m.states.find? (fun st => st.descriptorHandle == h) with
  | some st => Except.ok st
  | none => Except.error ("state " ++ h ++ " not found")

/-- `ProviderRole._set_numeric_value`: resolve the operation target, set
the observable current_value, fetch (or create) the target's metric value,
assign the value, and force Validity to VALID when the metric's category
is SETTING or PRESETTING (SF1823). -/
def set_numeric_value {α : Type} [DecidableEq α] (m : MetricMdib α)
    (operationInstance : OperationInstance α) (value : α) :
    Except String (MetricMdib α × OperationInstance α) := do
  let operationTargetHandle ←
    get_operation_target_handle m operationInstance.handle
  let operationInstance2 :=
    { operationInstance with currentValue := some value }
  let state ← get_metric_state m operationTargetHandle
  let mv :=
    match state.metricValue with
    | none => mk_metric_value
    | some mv => mv
  let mv := { mv with Value := some value }
  let metricDescriptor ← get_one_description m operationTargetHandle
  let mv :=
    if metricDescriptor.MetricCategory = MetricCategory.SETTING ∨
        metricDescriptor.MetricCategory = MetricCategory.PRESETTING then
      { mv with Validity := some MeasurementValidity.VALID }
    else mv
  Except.ok
    ({ m with states :=
        m.states.map (fun st =>
          if st.descriptorHandle == operationTargetHandle then
            { st with metricValue := some mv }
          else st) },
     operationInstance2)

/-- `ProviderRole._set_string`: textually the same logic as
_set_numeric_value (the source duplicates the body). -/
def set_string {α : Type} [DecidableEq α] (m : MetricMdib α)
    (operationInstance : OperationInstance α) (value : α) :
    Except String (MetricMdib α × OperationInstance α) := do
  let operationTargetHandle ←
    get_operation_target_handle m operationInstance.handle
  let operationInstance2 :=
    { operationInstance with currentValue := some value }
  let state ← get_metric_state m operationTargetHandle
  let mv :=
    match state.metricValue with
    | none => mk_metric_value
    | some mv => mv
  let mv := { mv with Value := some value }
  let metricDescriptor ← get_one_description m operationTargetHandle
  let mv :=
    if metricDescriptor.MetricCategory = MetricCategory.SETTING ∨
        metricDescriptor.MetricCategory = MetricCategory.PRESETTING then
      { mv with Validity := some MeasurementValidity.VALID }
    else mv
  Except.ok
    ({ m with states :=
        m.states.map (fun st =>
          if st.descriptorHandle == operationTargetHandle then
            { st with metricValue := some mv }
          else st) },
     operationInstance2)

/-- A descriptor entry of the registry mdib: handle, parent, QName
discriminant, the OperationTarget attribute for operation descriptors, and
whether the correlated state type is a multi state. -/
structure RegDescriptor where
  handle : String
  parentHandle : Option String
  qname : String
  OperationTarget : Option String
  isContext : Bool
deriving DecidableEq, Repr

/-- A state entry of the registry mdib. -/
structure RegState where
  descriptorHandle : String
  qname : String
  isMultiState : Bool
deriving DecidableEq, Repr

/-- The mdib stores touched by OperationDefinition.set_mdib. -/
structure RegMdib where
  descriptions : List RegDescriptor
  states : List RegState
  contextStates : List RegState
deriving DecidableEq, Repr

/-- Modelled from the spec: `mk_state_container_from_descriptor` (device
mdib module) is not among the sources; per the spec it is the external
state-from-descriptor factory creating a default state instance for a
descriptor (multi-state for context descriptors). -/
def mk_state_container_from_descriptor (d : RegDescriptor) : RegState :=
  { descriptorHandle := d.handle, qname := d.qname ++ "State",
    isMultiState := d.isContext }

/-- The data of an OperationDefinition relevant to registration: its
handle, target handle, descriptor / state QNames, and whether self._mdib
has been assigned. -/
structure OperationDef where
  handle : String
  operationTargetHandle : String
  opDescrQName : String
  opStateQName : String
  hasMdib : Bool
deriving DecidableEq, Repr

/-- `OperationDefinition.set_mdib`: raises RuntimeError when the mdib is
already set; otherwise stores the mdib, re-uses or creates the operation's
descriptor and state containers, and ensures the operation target has a
state instance (created via the state-from-descriptor factory, going to
the context-state store for multi states). -/
def set_mdib (op : OperationDef) (m : RegMdib) (parentHandle : String) :
    Except String (OperationDef × RegMdib) :=
  if op.hasMdib then Except.error "Mdib is already set"
  else
    let m1 :=
      match m.descriptions.find? (fun d => d.handle == op.handle) with
      | some _ => m
      | none =>
          { m with descriptions :=
              m.descriptions ++
                [RegDescriptor.mk op.handle (some parentHandle)
                  op.opDescrQName (some op.operationTargetHandle) false] }
    let m2 :=
      match m1.states.find?
        (fun st => st.descriptorHandle == op.handle) with
      | some _ => m1
      | none =>
          { m1 with states :=
              m1.states ++ [RegState.mk op.handle op.opStateQName false] }
    match m2.descriptions.find?
      (fun d => d.handle == op.operationTargetHandle) with
    | none =>
        Except.error
          ("handle " ++ op.operationTargetHandle ++ " not found")
    | some targetDescriptor =>
        let m3 :=
          match m2.states.find?
            (fun st => st.descriptorHandle == op.operationTargetHandle)
            with
          | some _ => m2
          | none =>
              let targetState :=
                mk_state_container_from_descriptor targetDescriptor
              if targetState.isMultiState then
                { m2 with contextStates :=
                    m2.contextStates ++ [targetState] }
              else
                { m2 with states := m2.states ++ [targetState] }
        Except.ok ({ op with hasMdib := true }, m3)

/-- Python dict assignment
`self._registered_operations[handle] = operation`. -/
def dictInsert :
    List (String × OperationDef) → String → OperationDef →
    List (String × OperationDef)
  | [], k, v => [(k, v)]
  | (k0, v0) :: rest, k, v =>
      if k0 = k then (k0, v) :: rest
      else (k0, v0) :: dictInsert rest k v

/-- Sample mdib for the C8 scenario: a SetValue operation op1 targeting
metric M1 of category SETTING, whose state has no metric value yet. -/
def c8SampleMdib : MetricMdib Int :=
  MetricMdib.mk
    [ProviderDescriptor.mk "op1" (some "M1") MetricCategory.UNSPECIFIED,
     ProviderDescriptor.mk "M1" none MetricCategory.SETTING]
    [MetricState.mk "M1" none]

/-- Sample operation instance for the C8 scenario. -/
def c8SampleOperation : OperationInstance Int :=
  OperationInstance.mk "op1" none

/-- Sample target state for the C8 scenario. -/
def c8SampleState : MetricState Int := MetricState.mk "M1" none

/-- Sample metric descriptor for the C8 scenario. -/
def c8SampleDescriptor : ProviderDescriptor :=
  ProviderDescriptor.mk "M1" none MetricCategory.SETTING

/-- The ScoOperationsRegistry data used by register_operation. -/
structure Registry where
  registeredOperations : List (String × OperationDef)
  mdib : RegMdib
  mdsScoHandle : String
deriving DecidableEq, Repr

/-- `ScoOperationsRegistry.register_operation`: an already-registered
handle is only logged as a re-use case, then set_mdib is called and the
operation is stored under its handle. -/
def register_operation (reg : Registry) (op : OperationDef) :
    Except String (Registry × OperationDef) := do
  let p ← set_mdib op reg.mdib reg.mdsScoHandle
  Except.ok
    ({ reg with
        mdib := p.2,
        registeredOperations :=
          dictInsert reg.registeredOperations op.handle p.1 }, p.1)

end Sdc

namespace Sdc

/-- The list of transaction ids returned by a run of enqueue calls is the
arithmetic range starting at the worker's current counter. -/
theorem enqueueAll_fst (rs : List (Operation × Request × OperationRequest)) :
    ∀ s : WorkerState,
      (enqueueAll s rs).1 = List.range' s.transactionId rs.length := by
  induction rs with
  | nil => intro s; simp [enqueueAll]
  | cons r rs ih =>
      intro s
      obtain ⟨operation, request, operationRequest⟩ := r
      simp [enqueueAll, enqueue_operation, List.range'_succ, ih]

/-- The queue after a run of enqueue calls carries exactly the returned
transaction ids, appended behind the old queue content. -/
theorem enqueueAll_queue
    (rs : List (Operation × Request × OperationRequest)) :
    ∀ s : WorkerState,
      ((enqueueAll s rs).2.queue).map entryTransactionId =
        s.queue.map entryTransactionId ++
          (enqueueAll s rs).1.map some := by
  induction rs with
  | nil => intro s; simp [enqueueAll]
  | cons r rs ih =>
      intro s
      obtain ⟨operation, request, operationRequest⟩ := r
      simp [enqueueAll, enqueue_operation, ih, entryTransactionId]

/-- C1: every accepted queue item (dequeued, not the stop sentinel) produces
exactly three notifications, in the order WAIT, START, terminal, all three
carrying the transaction id and operation of the queue item; and the run
loop emits exactly these three before moving on to the rest of the queue. -/
theorem c1_wait_start_terminal_order (exec : Exec) (transactionId : Nat)
    (operation : Operation) (request : Request)
    (operationRequest : OperationRequest) (rest : List QueueEntry) :
    ∃ term : Notification,
      processItem exec transactionId operation request operationRequest =
        [mkNotification operation transactionId InvocationState.WAIT
           none none,
         mkNotification operation transactionId InvocationState.START
           none none, term] ∧
      isTerminal term.invocationState = true ∧
      term.transactionId = transactionId ∧
      term.operation = operation ∧
      workerRun exec
          (QueueEntry.item transactionId operation request operationRequest
            :: rest) =
        processItem exec transactionId operation request operationRequest ++
          workerRun exec rest := by
  cases h : exec operation request operationRequest with
  | ok u =>
      refine ⟨mkNotification operation transactionId
        InvocationState.FINISHED none none, ?_, rfl, rfl, rfl, rfl⟩
      simp [processItem, h]
  | error ex =>
      refine ⟨mkNotification operation transactionId
        InvocationState.FAILED (some "Oth") (some ex), ?_, rfl, rfl, rfl,
        rfl⟩
      simp [processItem, h]

/-- C2: an item whose effect raises terminates with FAILED, error kind 'Oth'
and the exception text as message, the worker continues with the rest of the
queue, and a later item whose effect succeeds still completes with
FINISHED. -/
theorem c2_failed_oth_and_isolation (exec : Exec)
    (transactionId transactionId2 : Nat) (operation operation2 : Operation)
    (request request2 : Request)
    (operationRequest operationRequest2 : OperationRequest)
    (rest : List QueueEntry) (ex : String)
    (hfail : exec operation request operationRequest = Except.error ex)
    (hok : exec operation2 request2 operationRequest2 = Except.ok ()) :
    processItem exec transactionId operation request operationRequest =
      [mkNotification operation transactionId InvocationState.WAIT
         none none,
       mkNotification operation transactionId InvocationState.START
         none none,
       mkNotification operation transactionId InvocationState.FAILED
         (some "Oth") (some ex)] ∧
    processItem exec transactionId2 operation2 request2 operationRequest2 =
      [mkNotification operation2 transactionId2 InvocationState.WAIT
         none none,
       mkNotification operation2 transactionId2 InvocationState.START
         none none,
       mkNotification operation2 transactionId2 InvocationState.FINISHED
         none none] ∧
    workerRun exec
        (QueueEntry.item transactionId operation request operationRequest ::
         QueueEntry.item transactionId2 operation2 request2
           operationRequest2 :: rest) =
      processItem exec transactionId operation request operationRequest ++
        (processItem exec transactionId2 operation2 request2
           operationRequest2 ++ workerRun exec rest) := by
  refine ⟨?_, ?_, rfl⟩
  · simp [processItem, hfail]
  · simp [processItem, hok]

/-- Effect table used by the C2 witness: the operation with handle 'bad'
raises, every other operation succeeds. -/
def execSampleC2 : Exec := fun operation _ _ =>
  if operation.handle = "bad" then Except.error "boom" else Except.ok ()

/-- Witness for C2 at a concrete failing and a concrete succeeding item. -/
theorem c2_failed_oth_and_isolation_witness :
    execSampleC2 (Operation.mk "bad" "SetValue")
        (Request.mk ["bad"] "SetValue") (OperationRequest.mk "x") =
      Except.error "boom" ∧
    execSampleC2 (Operation.mk "good" "SetValue")
        (Request.mk ["good"] "SetValue") (OperationRequest.mk "y") =
      Except.ok () ∧
    (processItem execSampleC2 1 (Operation.mk "bad" "SetValue")
        (Request.mk ["bad"] "SetValue") (OperationRequest.mk "x") =
      [mkNotification (Operation.mk "bad" "SetValue") 1
         InvocationState.WAIT none none,
       mkNotification (Operation.mk "bad" "SetValue") 1
         InvocationState.START none none,
       mkNotification (Operation.mk "bad" "SetValue") 1
         InvocationState.FAILED (some "Oth") (some "boom")] ∧
    processItem execSampleC2 2 (Operation.mk "good" "SetValue")
        (Request.mk ["good"] "SetValue") (OperationRequest.mk "y") =
      [mkNotification (Operation.mk "good" "SetValue") 2
         InvocationState.WAIT none none,
       mkNotification (Operation.mk "good" "SetValue") 2
         InvocationState.START none none,
       mkNotification (Operation.mk "good" "SetValue") 2
         InvocationState.FINISHED none none] ∧
    workerRun execSampleC2
        [QueueEntry.item 1 (Operation.mk "bad" "SetValue")
           (Request.mk ["bad"] "SetValue") (OperationRequest.mk "x"),
         QueueEntry.item 2 (Operation.mk "good" "SetValue")
           (Request.mk ["good"] "SetValue") (OperationRequest.mk "y")] =
      processItem execSampleC2 1 (Operation.mk "bad" "SetValue")
          (Request.mk ["bad"] "SetValue") (OperationRequest.mk "x") ++
        (processItem execSampleC2 2 (Operation.mk "good" "SetValue")
            (Request.mk ["good"] "SetValue") (OperationRequest.mk "y") ++
          workerRun execSampleC2 [])) :=
  ⟨rfl, rfl,
   c2_failed_oth_and_isolation execSampleC2 1 2
     (Operation.mk "bad" "SetValue") (Operation.mk "good" "SetValue")
     (Request.mk ["bad"] "SetValue") (Request.mk ["good"] "SetValue")
     (OperationRequest.mk "x") (OperationRequest.mk "y") [] "boom"
     rfl rfl⟩

/-- C3: over any sequence of enqueue calls on a fresh worker the returned
transaction ids are 1, 2, ..., N: strictly increasing, pairwise unique,
starting at 1, and each id is already part of the enqueued entry (assigned
at enqueue time, before the worker processes anything). -/
theorem c3_transaction_ids
    (rs : List (Operation × Request × OperationRequest)) :
    (enqueueAll initialWorker rs).1 = List.range' 1 rs.length ∧
    (enqueueAll initialWorker rs).1.Pairwise (· < ·) ∧
    (enqueueAll initialWorker rs).1.Nodup ∧
    (rs ≠ [] → (enqueueAll initialWorker rs).1.head? = some 1) ∧
    ((enqueueAll initialWorker rs).2.queue).map entryTransactionId =
      (enqueueAll initialWorker rs).1.map some := by
  have hfst : (enqueueAll initialWorker rs).1 = List.range' 1 rs.length :=
    enqueueAll_fst rs initialWorker
  refine ⟨hfst, ?_, ?_, ?_, ?_⟩
  · rw [hfst]; exact List.pairwise_lt_range' 1 rs.length 1 Nat.one_pos
  · rw [hfst]; exact List.nodup_range' 1 rs.length 1 Nat.one_pos
  · intro hne
    rw [hfst]
    cases rs with
    | nil => exact absurd rfl hne
    | cons r rs => simp [List.range'_succ]
  · have hq := enqueueAll_queue rs initialWorker
    simpa [initialWorker] using hq

/-- Witness for C3 at a concrete three-element enqueue sequence. -/
theorem c3_transaction_ids_witness :
    ((enqueueAll initialWorker
        [(Operation.mk "a" "SetValue", Request.mk ["a"] "SetValue",
          OperationRequest.mk "1"),
         (Operation.mk "b" "SetString", Request.mk ["b"] "SetString",
          OperationRequest.mk "2"),
         (Operation.mk "c" "Activate", Request.mk ["c"] "Activate",
          OperationRequest.mk "3")]).1 = List.range' 1 3 ∧
     (enqueueAll initialWorker
        [(Operation.mk "a" "SetValue", Request.mk ["a"] "SetValue",
          OperationRequest.mk "1"),
         (Operation.mk "b" "SetString", Request.mk ["b"] "SetString",
          OperationRequest.mk "2"),
         (Operation.mk "c" "Activate", Request.mk ["c"] "Activate",
          OperationRequest.mk "3")]).1.Pairwise (· < ·) ∧
     (enqueueAll initialWorker
        [(Operation.mk "a" "SetValue", Request.mk ["a"] "SetValue",
          OperationRequest.mk "1"),
         (Operation.mk "b" "SetString", Request.mk ["b"] "SetString",
          OperationRequest.mk "2"),
         (Operation.mk "c" "Activate", Request.mk ["c"] "Activate",
          OperationRequest.mk "3")]).1.Nodup ∧
     ([(Operation.mk "a" "SetValue", Request.mk ["a"] "SetValue",
          OperationRequest.mk "1"),
       (Operation.mk "b" "SetString", Request.mk ["b"] "SetString",
          OperationRequest.mk "2"),
       (Operation.mk "c" "Activate", Request.mk ["c"] "Activate",
          OperationRequest.mk "3")] ≠
        ([] : List (Operation × Request × OperationRequest)) →
      (enqueueAll initialWorker
        [(Operation.mk "a" "SetValue", Request.mk ["a"] "SetValue",
          OperationRequest.mk "1"),
         (Operation.mk "b" "SetString", Request.mk ["b"] "SetString",
          OperationRequest.mk "2"),
         (Operation.mk "c" "Activate", Request.mk ["c"] "Activate",
          OperationRequest.mk "3")]).1.head? = some 1) ∧
     ((enqueueAll initialWorker
        [(Operation.mk "a" "SetValue", Request.mk ["a"] "SetValue",
          OperationRequest.mk "1"),
         (Operation.mk "b" "SetString", Request.mk ["b"] "SetString",
          OperationRequest.mk "2"),
         (Operation.mk "c" "Activate", Request.mk ["c"] "Activate",
          OperationRequest.mk "3")]).2.queue).map entryTransactionId =
       (enqueueAll initialWorker
        [(Operation.mk "a" "SetValue", Request.mk ["a"] "SetValue",
          OperationRequest.mk "1"),
         (Operation.mk "b" "SetString", Request.mk ["b"] "SetString",
          OperationRequest.mk "2"),
         (Operation.mk "c" "Activate", Request.mk ["c"] "Activate",
          OperationRequest.mk "3")]).1.map some) :=
  c3_transaction_ids
    [(Operation.mk "a" "SetValue", Request.mk ["a"] "SetValue",
      OperationRequest.mk "1"),
     (Operation.mk "b" "SetString", Request.mk ["b"] "SetString",
      OperationRequest.mk "2"),
     (Operation.mk "c" "Activate", Request.mk ["c"] "Activate",
      OperationRequest.mk "3")]

/-- C6: an unknown operation handle or a wire-tag mismatch is rejected
synchronously: the response is FAILED with InvocationError 'Inv'
(INVALID_VALUE) and TransactionId 0, the worker state is unchanged (nothing
enqueued), and consequently the worker emits no notification for the
request. -/
theorem c6_prequeue_rejection (registered : List Operation)
    (worker : WorkerState) (request : Request)
    (operationRequest : OperationRequest) (h : String)
    (href : request.operationHandleRefs = [h])
    (hbad : get_operation_by_handle registered h = none ∨
      ∃ operation, get_operation_by_handle registered h = some operation ∧
        request.bodyTag ≠ operation.opQName) :
    (handle_operation_request registered worker request
        operationRequest).1.invocationState = InvocationState.FAILED ∧
    (handle_operation_request registered worker request
        operationRequest).1.invocationError = some "Inv" ∧
    (handle_operation_request registered worker request
        operationRequest).1.transactionIdText = "0" ∧
    (handle_operation_request registered worker request
        operationRequest).2 = worker ∧
    (∀ exec : Exec,
      workerRun exec
          (handle_operation_request registered worker request
            operationRequest).2.queue =
        workerRun exec worker.queue) := by
  rcases hbad with hnone | ⟨operation, hsome, hne⟩
  · simp [handle_operation_request, href, hnone, failedResponse]
  · simp [handle_operation_request, href, hsome, hne, failedResponse]

/-- Witness for C6: a request naming an unregistered handle against a
registry holding one operation. -/
theorem c6_prequeue_rejection_witness :
    (Request.mk ["nope"] "SetValue").operationHandleRefs = ["nope"] ∧
    (get_operation_by_handle [Operation.mk "op1" "SetValue"] "nope" =
        none ∨
      ∃ operation,
        get_operation_by_handle [Operation.mk "op1" "SetValue"] "nope" =
            some operation ∧
          (Request.mk ["nope"] "SetValue").bodyTag ≠ operation.opQName) ∧
    ((handle_operation_request [Operation.mk "op1" "SetValue"]
        initialWorker (Request.mk ["nope"] "SetValue")
        (OperationRequest.mk "x")).1.invocationState =
      InvocationState.FAILED ∧
    (handle_operation_request [Operation.mk "op1" "SetValue"]
        initialWorker (Request.mk ["nope"] "SetValue")
        (OperationRequest.mk "x")).1.invocationError = some "Inv" ∧
    (handle_operation_request [Operation.mk "op1" "SetValue"]
        initialWorker (Request.mk ["nope"] "SetValue")
        (OperationRequest.mk "x")).1.transactionIdText = "0" ∧
    (handle_operation_request [Operation.mk "op1" "SetValue"]
        initialWorker (Request.mk ["nope"] "SetValue")
        (OperationRequest.mk "x")).2 = initialWorker ∧
    (∀ exec : Exec,
      workerRun exec
          (handle_operation_request [Operation.mk "op1" "SetValue"]
            initialWorker (Request.mk ["nope"] "SetValue")
            (OperationRequest.mk "x")).2.queue =
        workerRun exec initialWorker.queue)) :=
  ⟨rfl, Or.inl rfl,
   c6_prequeue_rejection [Operation.mk "op1" "SetValue"] initialWorker
     (Request.mk ["nope"] "SetValue") (OperationRequest.mk "x") "nope"
     rfl (Or.inl rfl)⟩

/-- Every node produced by the reordering loop carries a declared tag. -/
theorem mem_gatherByTag {qnames : List String} {nodes : List ChildNode}
    {n : ChildNode} (h : n ∈ gatherByTag qnames nodes) : n.tag ∈ qnames := by
  induction qnames with
  | nil => simp [gatherByTag] at h
  | cons q qs ih =>
      simp only [gatherByTag, List.mem_append, List.mem_filter] at h
      rcases h with ⟨_, htag⟩ | h
      · simp only [beq_iff_eq] at htag
        simp [htag]
      · exact List.mem_cons_of_mem _ (ih h)

/-- Nodes whose tag is a name not occurring in qnames can be dropped
without changing the reordering loop's output. -/
theorem gatherByTag_skip (q : String) (qs : List String)
    (nodes : List ChildNode) (hq : q ∉ qs) :
    gatherByTag qs (nodes.filter (fun n => !(n.tag == q))) =
      gatherByTag qs nodes := by
  induction qs with
  | nil => simp [gatherByTag]
  | cons q2 qs2 ih =>
      have hne : q2 ≠ q := fun h => hq (by simp [h])
      have hnotin : q ∉ qs2 := fun h => hq (List.mem_cons_of_mem _ h)
      simp only [gatherByTag, List.filter_filter]
      rw [ih hnotin]
      congr 1
      refine List.filter_congr ?_
      intro x _
      by_cases hx : x.tag = q2
      · simp [hx, hne]
      · simp [hx]

/-- The reordering loop permutes its input when every tag is declared and
the declared names are distinct. -/
theorem gatherByTag_perm (qnames : List String) :
    ∀ nodes : List ChildNode, qnames.Nodup →
      (∀ n ∈ nodes, n.tag ∈ qnames) →
      (gatherByTag qnames nodes).Perm nodes := by
  induction qnames with
  | nil =>
      intro nodes _ hall
      cases nodes with
      | nil => simp [gatherByTag]
      | cons c cs => exact absurd (hall c (List.mem_cons_self c cs)) (by simp)
  | cons q qs ih =>
      intro nodes hnd hall
      have hq : q ∉ qs := (List.nodup_cons.mp hnd).1
      have hqs : qs.Nodup := (List.nodup_cons.mp hnd).2
      have hB : ∀ n ∈ nodes.filter (fun n => !(n.tag == q)), n.tag ∈ qs := by
        intro n hn
        rcases List.mem_filter.mp hn with ⟨hmem, hne⟩
        have hne2 : n.tag ≠ q := by simpa using hne
        rcases List.mem_cons.mp (hall n hmem) with h | h
        · exact absurd h hne2
        · exact h
      rw [show gatherByTag (q :: qs) nodes =
          nodes.filter (fun n => n.tag == q) ++ gatherByTag qs nodes
          from rfl,
        ← gatherByTag_skip q qs nodes hq]
      exact List.Perm.trans (List.Perm.append_left _ (ih _ hqs hB))
        (List.filter_append_perm _ nodes)

/-- The tags of the reordering loop's output occur in declaration order. -/
theorem gatherByTag_pairwise (qnames : List String)
    (nodes : List ChildNode) (hnd : qnames.Nodup) :
    (gatherByTag qnames nodes).Pairwise (fun a b =>
      List.indexOf a.tag qnames ≤ List.indexOf b.tag qnames) := by
  induction qnames with
  | nil => simp [gatherByTag]
  | cons q qs ih =>
      have hq : q ∉ qs := (List.nodup_cons.mp hnd).1
      have hqs : qs.Nodup := (List.nodup_cons.mp hnd).2
      have hidx0 : ∀ n : ChildNode, n.tag = q →
          List.indexOf n.tag (q :: qs) = 0 := by
        intro n hn
        simp [List.indexOf_cons, hn]
      have hidxS : ∀ n : ChildNode, n.tag ∈ qs →
          List.indexOf n.tag (q :: qs) = List.indexOf n.tag qs + 1 := by
        intro n hn
        have : q ≠ n.tag := fun h => hq (h ▸ hn)
        simp [List.indexOf_cons, this]
      rw [show gatherByTag (q :: qs) nodes =
        nodes.filter (fun n => n.tag == q) ++ gatherByTag qs nodes from rfl]
      refine List.pairwise_append.mpr ⟨?_, ?_, ?_⟩
      · refine List.pairwise_of_forall_mem_list ?_
        intro a ha b _
        have : a.tag = q := by
          have := (List.mem_filter.mp ha).2
          simpa [beq_iff_eq] using this
        simp [hidx0 a this]
      · refine (ih hqs).imp_of_mem ?_
        intro a b ha hb hle
        have hta : a.tag ∈ qs := mem_gatherByTag ha
        have htb : b.tag ∈ qs := mem_gatherByTag hb
        rw [hidxS a hta, hidxS b htb]
        exact Nat.succ_le_succ hle
      · intro a ha b _
        have : a.tag = q := by
          have := (List.mem_filter.mp ha).2
          simpa [beq_iff_eq] using this
        simp [hidx0 a this]

/-- The reordering loop depends only on the per-tag groups of the input. -/
theorem gatherByTag_congr (qnames : List String)
    (nodes nodes2 : List ChildNode)
    (h : ∀ q : String, nodes2.filter (fun n => n.tag == q) =
      nodes.filter (fun n => n.tag == q)) :
    gatherByTag qnames nodes2 = gatherByTag qnames nodes := by
  induction qnames with
  | nil => rfl
  | cons q qs ih => simp only [gatherByTag, h q, ih]

/-- The declared child names of every variant are distinct. -/
theorem declaredQNames_nodup (nt : NodeType) : (declaredQNames nt).Nodup := by
  cases nt <;> decide

/-- C7: sorting the materialized child nodes of a descriptor succeeds when
every child tag is declared, and then the output is a permutation of the
children whose tags occur in the declared group order; the output depends
only on the per-tag groups of the input, not on insertion order; a child
node carrying an undeclared tag makes materialization raise a ValueError
instead of dropping the child. -/
theorem c7_materialize_child_order (parent : NodeType)
    (nodes nodes2 : List ChildNode)
    (hdecl : ∀ n ∈ nodes, n.tag ∈ declaredQNames parent) :
    sort_child_nodes parent nodes =
        Except.ok (gatherByTag (declaredQNames parent) nodes) ∧
    (gatherByTag (declaredQNames parent) nodes).Perm nodes ∧
    (gatherByTag (declaredQNames parent) nodes).Pairwise (fun a b =>
      List.indexOf a.tag (declaredQNames parent) ≤
        List.indexOf b.tag (declaredQNames parent)) ∧
    ((∀ q : String, nodes2.filter (fun n => n.tag == q) =
        nodes.filter (fun n => n.tag == q)) →
      sort_child_nodes parent nodes2 = sort_child_nodes parent nodes) ∧
    (∀ (bad : List ChildNode) (m : ChildNode), m ∈ bad →
      m.tag ∉ declaredQNames parent →
      sort_child_nodes parent bad = Except.error "not in Order") := by
  have hok : ∀ ns : List ChildNode,
      (∀ n ∈ ns, n.tag ∈ declaredQNames parent) →
      sort_child_nodes parent ns =
        Except.ok (gatherByTag (declaredQNames parent) ns) := by
    intro ns hall
    have hempty :
        ns.filter (fun n => !((declaredQNames parent).contains n.tag)) =
          [] := by
      refine List.filter_eq_nil_iff.mpr ?_
      intro n hn
      simp [List.contains, hall n hn]
    simp [sort_child_nodes, hempty]
    exact hall
  refine ⟨hok nodes hdecl, ?_, ?_, ?_, ?_⟩
  · exact gatherByTag_perm _ nodes (declaredQNames_nodup parent) hdecl
  · exact gatherByTag_pairwise _ nodes (declaredQNames_nodup parent)
  · intro hsame
    have hdecl2 : ∀ n ∈ nodes2, n.tag ∈ declaredQNames parent := by
      intro n hn
      have hmem : n ∈ nodes2.filter (fun m => m.tag == n.tag) :=
        List.mem_filter.mpr ⟨hn, by simp⟩
      rw [hsame n.tag] at hmem
      exact hdecl n (List.mem_filter.mp hmem).1
    rw [hok nodes2 hdecl2, hok nodes hdecl,
      gatherByTag_congr _ nodes nodes2 hsame]
  · intro bad m hm hnot
    have hmem :
        m ∈ bad.filter
          (fun n => !((declaredQNames parent).contains n.tag)) := by
      refine List.mem_filter.mpr ⟨hm, ?_⟩
      simp [List.contains, hnot]
    have hne := List.ne_nil_of_mem hmem
    simp only [sort_child_nodes]
    rw [if_neg (by simpa [List.isEmpty_iff] using hne)]

/-- Witness for C7: an Mds descriptor with a Vmd child and a Clock child,
materialized from two different insertion orders, and an undeclared tag. -/
theorem c7_materialize_child_order_witness :
    ((∀ n ∈ [ChildNode.mk "Vmd" "v1", ChildNode.mk "Clock" "c1"],
        n.tag ∈ declaredQNames NodeType.Mds) ∧
    (sort_child_nodes NodeType.Mds
        [ChildNode.mk "Vmd" "v1", ChildNode.mk "Clock" "c1"] =
        Except.ok (gatherByTag (declaredQNames NodeType.Mds)
          [ChildNode.mk "Vmd" "v1", ChildNode.mk "Clock" "c1"]) ∧
    (gatherByTag (declaredQNames NodeType.Mds)
        [ChildNode.mk "Vmd" "v1", ChildNode.mk "Clock" "c1"]).Perm
      [ChildNode.mk "Vmd" "v1", ChildNode.mk "Clock" "c1"] ∧
    (gatherByTag (declaredQNames NodeType.Mds)
        [ChildNode.mk "Vmd" "v1", ChildNode.mk "Clock" "c1"]).Pairwise
      (fun a b =>
        List.indexOf a.tag (declaredQNames NodeType.Mds) ≤
          List.indexOf b.tag (declaredQNames NodeType.Mds)) ∧
    ((∀ q : String,
        ([ChildNode.mk "Clock" "c1",
          ChildNode.mk "Vmd" "v1"]).filter (fun n => n.tag == q) =
          ([ChildNode.mk "Vmd" "v1",
            ChildNode.mk "Clock" "c1"]).filter (fun n => n.tag == q)) →
      sort_child_nodes NodeType.Mds
          [ChildNode.mk "Clock" "c1", ChildNode.mk "Vmd" "v1"] =
        sort_child_nodes NodeType.Mds
          [ChildNode.mk "Vmd" "v1", ChildNode.mk "Clock" "c1"]) ∧
    (∀ (bad : List ChildNode) (m : ChildNode), m ∈ bad →
      m.tag ∉ declaredQNames NodeType.Mds →
      sort_child_nodes NodeType.Mds bad = Except.error "not in Order"))) :=
  ⟨by decide,
   c7_materialize_child_order NodeType.Mds
     [ChildNode.mk "Vmd" "v1", ChildNode.mk "Clock" "c1"]
     [ChildNode.mk "Clock" "c1", ChildNode.mk "Vmd" "v1"]
     (by decide)⟩

/-- C5 counterexample: VmdDescriptor declares no group for a Battery child
(its only container group is Channel), yet `addChild` does not fail: it
appends the unsupported child and returns it. -/
theorem c5_addChild_counterexample :
    findChildTag (sorted_child_declarations NodeType.Vmd)
        NodeType.Battery = none ∧
    addChild (DescriptorContainer.mk NodeType.Vmd "vmd1" (some "mds1") [])
        (ChildDescriptor.mk NodeType.Battery "bat1") =
      Except.ok
        (DescriptorContainer.mk NodeType.Vmd "vmd1" (some "mds1")
          [(NodeType.Battery,
            [ChildDescriptor.mk NodeType.Battery "bat1"])]) := by
  exact ⟨rfl, rfl⟩

/-- C5 amended: `addChild` and `rmChild` on any metric-descriptor variant
always fail; on every other variant `addChild` appends unconditionally
(also for a child variant with no matching declared group), and the
"unsupported child" error is raised later, when the entity is
materialized. -/
theorem c5_metric_leaves_amended :
    (∀ (d : DescriptorContainer) (c : ChildDescriptor),
      isMetricDescriptor d.nodeType = true →
        addChild d c = Except.error "Metric can not have children" ∧
        rmChild d c = Except.error "Metric can not have children") ∧
    (∀ (d : DescriptorContainer) (c : ChildDescriptor),
      isMetricDescriptor d.nodeType = false →
        addChild d c = Except.ok
          { d with childContainersByType :=
              appendByType d.childContainersByType c }) ∧
    (∀ (d : DescriptorContainer) (c : ChildDescriptor),
      isMetricDescriptor d.nodeType = false →
      d.childContainersByType = [] →
      findChildTag (sorted_child_declarations d.nodeType) c.nodeType =
        none →
      ∀ d2, addChild d c = Except.ok d2 →
        mk_descriptor_node_children d2 =
          Except.error "not known in child declarations") := by
  refine ⟨?_, ?_, ?_⟩
  · intro d c hm
    constructor <;> simp [addChild, rmChild, hm]
  · intro d c hm
    simp [addChild, hm]
  · intro d c hm hempty hfind d2 hadd
    simp only [addChild, hm, Bool.false_eq_true, if_false, Except.ok.injEq]
      at hadd
    subst hadd
    simp only [mk_descriptor_node_children, connectChildNodes, hempty,
      appendByType, tag_name_for_child_descriptor, hfind]
    rfl

/-- Witness for the amended C5: a numeric-metric parent always rejects
children; a Vmd parent accepts a Battery child and the error shows up when
materializing. -/
theorem c5_metric_leaves_amended_witness :
    isMetricDescriptor NodeType.NumericMetric = true ∧
    (addChild
        (DescriptorContainer.mk NodeType.NumericMetric "m1" (some "ch1")
          [])
        (ChildDescriptor.mk NodeType.Battery "b1") =
          Except.error "Metric can not have children" ∧
      rmChild
        (DescriptorContainer.mk NodeType.NumericMetric "m1" (some "ch1")
          [])
        (ChildDescriptor.mk NodeType.Battery "b1") =
          Except.error "Metric can not have children") ∧
    isMetricDescriptor NodeType.Vmd = false ∧
    addChild (DescriptorContainer.mk NodeType.Vmd "vmd1" (some "mds1") [])
        (ChildDescriptor.mk NodeType.Battery "bat1") =
      Except.ok
        { DescriptorContainer.mk NodeType.Vmd "vmd1" (some "mds1") [] with
          childContainersByType :=
            appendByType []
              (ChildDescriptor.mk NodeType.Battery "bat1") } ∧
    mk_descriptor_node_children
        (DescriptorContainer.mk NodeType.Vmd "vmd1" (some "mds1")
          [(NodeType.Battery,
            [ChildDescriptor.mk NodeType.Battery "bat1"])]) =
      Except.error "not known in child declarations" :=
  ⟨rfl,
   c5_metric_leaves_amended.1
     (DescriptorContainer.mk NodeType.NumericMetric "m1" (some "ch1") [])
     (ChildDescriptor.mk NodeType.Battery "b1") rfl,
   rfl,
   c5_metric_leaves_amended.2.1
     (DescriptorContainer.mk NodeType.Vmd "vmd1" (some "mds1") [])
     (ChildDescriptor.mk NodeType.Battery "bat1") rfl,
   c5_metric_leaves_amended.2.2
     (DescriptorContainer.mk NodeType.Vmd "vmd1" (some "mds1") [])
     (ChildDescriptor.mk NodeType.Battery "bat1") rfl rfl rfl
     (DescriptorContainer.mk NodeType.Vmd "vmd1" (some "mds1")
       [(NodeType.Battery, [ChildDescriptor.mk NodeType.Battery "bat1"])])
     rfl⟩

/-- A pointwise relation between a list and its image under a map. -/
theorem forall₂_map_self {α : Type} (f : α → α) (R : α → α → Prop)
    (h : ∀ a, R a (f a)) :
    ∀ l : List α, List.Forall₂ R l (l.map f)
  | [] => List.Forall₂.nil
  | a :: l => List.Forall₂.cons (h a) (forall₂_map_self f R h l)

/-- C4 counterexample: a proposed state whose Handle ("X") is absent from
the (empty) context-state store but differs from its descriptor handle
("DH") makes the effect raise ValueError; no new state is created. -/
theorem c4_absent_handle_counterexample :
    ((ContextMdib.mk [] 5 100).contextStates.find?
        (fun st => st.Handle == "X") = none) ∧
    set_context_state (ContextMdib.mk [] 5 100)
        [ContextStateContainer.mk "DH" "X"
          ContextAssociation.NO_ASSOCIATION none none none none 0 []] =
      Except.error "handle X not found" :=
  ⟨rfl, rfl⟩

/-- C4 amended: only a proposed state whose Handle equals its descriptor
handle is treated as brand new; then the effect adds a state with the
generated handle descriptorHandle_mdibVersion, binding version and start
time set, marked ASSOCIATED, and every other state of the descriptor runs
through the disassociation outcome (unbinding fields only filled where
previously unset); a proposed state with any other absent handle raises
instead. -/
theorem c4_new_context_state_amended (m : ContextMdib)
    (proposed : ContextStateContainer)
    (hnew : proposed.Handle = proposed.descriptorHandle) :
    set_context_state m [proposed] = Except.ok
      { m with contextStates :=
          (m.contextStates.map (fun st =>
            if st.descriptorHandle == proposed.descriptorHandle then
              disassociateOld m.mdibVersion m.currentTime st
            else st)) ++
          [{ proposed with
              Handle := proposed.descriptorHandle ++ "_" ++
                toString m.mdibVersion,
              BindingMdibVersion := some m.mdibVersion,
              BindingStartTime := some m.currentTime,
              ContextAssociation := ContextAssociation.ASSOCIATED }] } ∧
    List.Forall₂
      (siblingOutcome m.mdibVersion m.currentTime
        proposed.descriptorHandle)
      m.contextStates
      (m.contextStates.map (fun st =>
        if st.descriptorHandle == proposed.descriptorHandle then
          disassociateOld m.mdibVersion m.currentTime st
        else st)) := by
  constructor
  · simp only [set_context_state, setContextStateOne, hnew, ne_eq,
      not_true_eq_false, if_false, ite_self]
    rfl
  · refine forall₂_map_self _ _ ?_ m.contextStates
    intro st
    by_cases hd : st.descriptorHandle = proposed.descriptorHandle
    · simp only [hd, beq_self_eq_true, if_true]
      refine ⟨fun habs => absurd hd habs, fun _ => ?_⟩
      by_cases hu : st.UnbindingMdibVersion = none
      · have hcond : st.ContextAssociation ≠
            ContextAssociation.DISASSOCIATED ∨
            st.UnbindingMdibVersion = none := Or.inr hu
        simp [disassociateOld, hcond, hu]
      · by_cases ha : st.ContextAssociation =
            ContextAssociation.DISASSOCIATED
        · have hcond : ¬(st.ContextAssociation ≠
              ContextAssociation.DISASSOCIATED ∨
              st.UnbindingMdibVersion = none) := by
            simp [ha, hu]
          simp [disassociateOld, hcond, ha, hu]
        · have hcond : st.ContextAssociation ≠
              ContextAssociation.DISASSOCIATED ∨
              st.UnbindingMdibVersion = none := Or.inl ha
          simp [disassociateOld, hcond, hu, ha]
    · have hbeq : (st.descriptorHandle == proposed.descriptorHandle) =
          false := by simp [hd]
      simp only [hbeq, Bool.false_eq_true, if_false]
      exact ⟨fun _ => rfl, fun habs => absurd habs hd⟩

/-- Witness for the amended C4: a store with one associated sibling and
one already-disassociated sibling, plus a brand-new proposed state. -/
theorem c4_new_context_state_amended_witness :
    (ContextStateContainer.mk "DH" "DH"
        ContextAssociation.NO_ASSOCIATION none none none none 0
        [("Given", "B")]).Handle =
      (ContextStateContainer.mk "DH" "DH"
        ContextAssociation.NO_ASSOCIATION none none none none 0
        [("Given", "B")]).descriptorHandle ∧
    (set_context_state
        (ContextMdib.mk
          [ContextStateContainer.mk "DH" "DH_1"
            ContextAssociation.ASSOCIATED (some 1) none (some 10) none 3
            [("Given", "A")],
           ContextStateContainer.mk "DH" "DH_0"
            ContextAssociation.DISASSOCIATED (some 0) (some 1) (some 5)
            (some 6) 2 []]
          7 99)
        [ContextStateContainer.mk "DH" "DH"
          ContextAssociation.NO_ASSOCIATION none none none none 0
          [("Given", "B")]] = Except.ok
      { ContextMdib.mk
          [ContextStateContainer.mk "DH" "DH_1"
            ContextAssociation.ASSOCIATED (some 1) none (some 10) none 3
            [("Given", "A")],
           ContextStateContainer.mk "DH" "DH_0"
            ContextAssociation.DISASSOCIATED (some 0) (some 1) (some 5)
            (some 6) 2 []]
          7 99 with
        contextStates :=
          ((ContextMdib.mk
            [ContextStateContainer.mk "DH" "DH_1"
              ContextAssociation.ASSOCIATED (some 1) none (some 10) none 3
              [("Given", "A")],
             ContextStateContainer.mk "DH" "DH_0"
              ContextAssociation.DISASSOCIATED (some 0) (some 1) (some 5)
              (some 6) 2 []]
            7 99).contextStates.map (fun st =>
            if st.descriptorHandle ==
                (ContextStateContainer.mk "DH" "DH"
                  ContextAssociation.NO_ASSOCIATION none none none none 0
                  [("Given", "B")]).descriptorHandle then
              disassociateOld 7 99 st
            else st)) ++
          [{ ContextStateContainer.mk "DH" "DH"
              ContextAssociation.NO_ASSOCIATION none none none none 0
              [("Given", "B")] with
            Handle :=
              (ContextStateContainer.mk "DH" "DH"
                ContextAssociation.NO_ASSOCIATION none none none none 0
                [("Given", "B")]).descriptorHandle ++ "_" ++ toString 7,
            BindingMdibVersion := some 7,
            BindingStartTime := some 99,
            ContextAssociation := ContextAssociation.ASSOCIATED }] } ∧
    List.Forall₂
      (siblingOutcome 7 99
        (ContextStateContainer.mk "DH" "DH"
          ContextAssociation.NO_ASSOCIATION none none none none 0
          [("Given", "B")]).descriptorHandle)
      (ContextMdib.mk
        [ContextStateContainer.mk "DH" "DH_1"
          ContextAssociation.ASSOCIATED (some 1) none (some 10) none 3
          [("Given", "A")],
         ContextStateContainer.mk "DH" "DH_0"
          ContextAssociation.DISASSOCIATED (some 0) (some 1) (some 5)
          (some 6) 2 []]
        7 99).contextStates
      ((ContextMdib.mk
        [ContextStateContainer.mk "DH" "DH_1"
          ContextAssociation.ASSOCIATED (some 1) none (some 10) none 3
          [("Given", "A")],
         ContextStateContainer.mk "DH" "DH_0"
          ContextAssociation.DISASSOCIATED (some 0) (some 1) (some 5)
          (some 6) 2 []]
        7 99).contextStates.map (fun st =>
        if st.descriptorHandle ==
            (ContextStateContainer.mk "DH" "DH"
              ContextAssociation.NO_ASSOCIATION none none none none 0
              [("Given", "B")]).descriptorHandle then
          disassociateOld 7 99 st
        else st))) :=
  ⟨rfl,
   c4_new_context_state_amended
     (ContextMdib.mk
       [ContextStateContainer.mk "DH" "DH_1"
         ContextAssociation.ASSOCIATED (some 1) none (some 10) none 3
         [("Given", "A")],
        ContextStateContainer.mk "DH" "DH_0"
         ContextAssociation.DISASSOCIATED (some 0) (some 1) (some 5)
         (some 6) 2 []]
       7 99)
     (ContextStateContainer.mk "DH" "DH"
       ContextAssociation.NO_ASSOCIATION none none none none 0
       [("Given", "B")])
     rfl⟩

/-- C9: updating an existing context state (Handle found, different from
the descriptor handle) replaces it by the skipping merge, and the merge
leaves ContextAssociation, BindingMdibVersion, UnbindingMdibVersion,
BindingStartTime, BindingEndTime and StateVersion of the target unchanged
while the remaining declared fields come from the proposed state. -/
theorem c9_update_merge_excludes_engine_fields (m : ContextMdib)
    (proposed old : ContextStateContainer)
    (hdiff : proposed.descriptorHandle ≠ proposed.Handle)
    (hfind : m.contextStates.find?
        (fun st => st.Handle == proposed.Handle) = some old) :
    set_context_state m [proposed] = Except.ok
      { m with contextStates :=
          m.contextStates.map (fun st =>
            if st.Handle == proposed.Handle then
              update_from_other_container st proposed
                contextSkippedProperties
            else st) } ∧
    (update_from_other_container old proposed
        contextSkippedProperties).ContextAssociation =
      old.ContextAssociation ∧
    (update_from_other_container old proposed
        contextSkippedProperties).BindingMdibVersion =
      old.BindingMdibVersion ∧
    (update_from_other_container old proposed
        contextSkippedProperties).UnbindingMdibVersion =
      old.UnbindingMdibVersion ∧
    (update_from_other_container old proposed
        contextSkippedProperties).BindingStartTime =
      old.BindingStartTime ∧
    (update_from_other_container old proposed
        contextSkippedProperties).BindingEndTime = old.BindingEndTime ∧
    (update_from_other_container old proposed
        contextSkippedProperties).StateVersion = old.StateVersion ∧
    (update_from_other_container old proposed
        contextSkippedProperties).payload = proposed.payload ∧
    (update_from_other_container old proposed
        contextSkippedProperties).Handle = proposed.Handle ∧
    (update_from_other_container old proposed
        contextSkippedProperties).descriptorHandle =
      proposed.descriptorHandle := by
  refine ⟨?_, rfl, rfl, rfl, rfl, rfl, rfl, rfl, rfl, rfl⟩
  simp only [set_context_state, setContextStateOne, hdiff, hfind, ne_eq,
    not_false_eq_true, if_true]
  rfl

/-- Witness for C9: a store holding the state DH_1, updated by a proposed
state with a new payload and client-supplied association fields. -/
theorem c9_update_merge_excludes_engine_fields_witness :
    (ContextStateContainer.mk "DH" "DH_1"
        ContextAssociation.NO_ASSOCIATION (some 9) (some 9) (some 9)
        (some 9) 9 [("Given", "B")]).descriptorHandle ≠
      (ContextStateContainer.mk "DH" "DH_1"
        ContextAssociation.NO_ASSOCIATION (some 9) (some 9) (some 9)
        (some 9) 9 [("Given", "B")]).Handle ∧
    (ContextMdib.mk
        [ContextStateContainer.mk "DH" "DH_1"
          ContextAssociation.ASSOCIATED (some 1) none (some 10) none 3
          [("Given", "A")]]
        7 99).contextStates.find?
      (fun st => st.Handle ==
        (ContextStateContainer.mk "DH" "DH_1"
          ContextAssociation.NO_ASSOCIATION (some 9) (some 9) (some 9)
          (some 9) 9 [("Given", "B")]).Handle) =
      some (ContextStateContainer.mk "DH" "DH_1"
        ContextAssociation.ASSOCIATED (some 1) none (some 10) none 3
        [("Given", "A")]) ∧
    (set_context_state
        (ContextMdib.mk
          [ContextStateContainer.mk "DH" "DH_1"
            ContextAssociation.ASSOCIATED (some 1) none (some 10) none 3
            [("Given", "A")]]
          7 99)
        [ContextStateContainer.mk "DH" "DH_1"
          ContextAssociation.NO_ASSOCIATION (some 9) (some 9) (some 9)
          (some 9) 9 [("Given", "B")]] = Except.ok
      { ContextMdib.mk
          [ContextStateContainer.mk "DH" "DH_1"
            ContextAssociation.ASSOCIATED (some 1) none (some 10) none 3
            [("Given", "A")]]
          7 99 with
        contextStates :=
          (ContextMdib.mk
            [ContextStateContainer.mk "DH" "DH_1"
              ContextAssociation.ASSOCIATED (some 1) none (some 10) none 3
              [("Given", "A")]]
            7 99).contextStates.map (fun st =>
            if st.Handle ==
                (ContextStateContainer.mk "DH" "DH_1"
                  ContextAssociation.NO_ASSOCIATION (some 9) (some 9)
                  (some 9) (some 9) 9 [("Given", "B")]).Handle then
              update_from_other_container st
                (ContextStateContainer.mk "DH" "DH_1"
                  ContextAssociation.NO_ASSOCIATION (some 9) (some 9)
                  (some 9) (some 9) 9 [("Given", "B")])
                contextSkippedProperties
            else st) } ∧
    (update_from_other_container
        (ContextStateContainer.mk "DH" "DH_1"
          ContextAssociation.ASSOCIATED (some 1) none (some 10) none 3
          [("Given", "A")])
        (ContextStateContainer.mk "DH" "DH_1"
          ContextAssociation.NO_ASSOCIATION (some 9) (some 9) (some 9)
          (some 9) 9 [("Given", "B")])
        contextSkippedProperties).ContextAssociation =
      (ContextStateContainer.mk "DH" "DH_1"
        ContextAssociation.ASSOCIATED (some 1) none (some 10) none 3
        [("Given", "A")]).ContextAssociation ∧
    (update_from_other_container
        (ContextStateContainer.mk "DH" "DH_1"
          ContextAssociation.ASSOCIATED (some 1) none (some 10) none 3
          [("Given", "A")])
        (ContextStateContainer.mk "DH" "DH_1"
          ContextAssociation.NO_ASSOCIATION (some 9) (some 9) (some 9)
          (some 9) 9 [("Given", "B")])
        contextSkippedProperties).BindingMdibVersion =
      (ContextStateContainer.mk "DH" "DH_1"
        ContextAssociation.ASSOCIATED (some 1) none (some 10) none 3
        [("Given", "A")]).BindingMdibVersion ∧
    (update_from_other_container
        (ContextStateContainer.mk "DH" "DH_1"
          ContextAssociation.ASSOCIATED (some 1) none (some 10) none 3
          [("Given", "A")])
        (ContextStateContainer.mk "DH" "DH_1"
          ContextAssociation.NO_ASSOCIATION (some 9) (some 9) (some 9)
          (some 9) 9 [("Given", "B")])
        contextSkippedProperties).UnbindingMdibVersion =
      (ContextStateContainer.mk "DH" "DH_1"
        ContextAssociation.ASSOCIATED (some 1) none (some 10) none 3
        [("Given", "A")]).UnbindingMdibVersion ∧
    (update_from_other_container
        (ContextStateContainer.mk "DH" "DH_1"
          ContextAssociation.ASSOCIATED (some 1) none (some 10) none 3
          [("Given", "A")])
        (ContextStateContainer.mk "DH" "DH_1"
          ContextAssociation.NO_ASSOCIATION (some 9) (some 9) (some 9)
          (some 9) 9 [("Given", "B")])
        contextSkippedProperties).BindingStartTime =
      (ContextStateContainer.mk "DH" "DH_1"
        ContextAssociation.ASSOCIATED (some 1) none (some 10) none 3
        [("Given", "A")]).BindingStartTime ∧
    (update_from_other_container
        (ContextStateContainer.mk "DH" "DH_1"
          ContextAssociation.ASSOCIATED (some 1) none (some 10) none 3
          [("Given", "A")])
        (ContextStateContainer.mk "DH" "DH_1"
          ContextAssociation.NO_ASSOCIATION (some 9) (some 9) (some 9)
          (some 9) 9 [("Given", "B")])
        contextSkippedProperties).BindingEndTime =
      (ContextStateContainer.mk "DH" "DH_1"
        ContextAssociation.ASSOCIATED (some 1) none (some 10) none 3
        [("Given", "A")]).BindingEndTime ∧
    (update_from_other_container
        (ContextStateContainer.mk "DH" "DH_1"
          ContextAssociation.ASSOCIATED (some 1) none (some 10) none 3
          [("Given", "A")])
        (ContextStateContainer.mk "DH" "DH_1"
          ContextAssociation.NO_ASSOCIATION (some 9) (some 9) (some 9)
          (some 9) 9 [("Given", "B")])
        contextSkippedProperties).StateVersion =
      (ContextStateContainer.mk "DH" "DH_1"
        ContextAssociation.ASSOCIATED (some 1) none (some 10) none 3
        [("Given", "A")]).StateVersion ∧
    (update_from_other_container
        (ContextStateContainer.mk "DH" "DH_1"
          ContextAssociation.ASSOCIATED (some 1) none (some 10) none 3
          [("Given", "A")])
        (ContextStateContainer.mk "DH" "DH_1"
          ContextAssociation.NO_ASSOCIATION (some 9) (some 9) (some 9)
          (some 9) 9 [("Given", "B")])
        contextSkippedProperties).payload =
      (ContextStateContainer.mk "DH" "DH_1"
        ContextAssociation.NO_ASSOCIATION (some 9) (some 9) (some 9)
        (some 9) 9 [("Given", "B")]).payload ∧
    (update_from_other_container
        (ContextStateContainer.mk "DH" "DH_1"
          ContextAssociation.ASSOCIATED (some 1) none (some 10) none 3
          [("Given", "A")])
        (ContextStateContainer.mk "DH" "DH_1"
          ContextAssociation.NO_ASSOCIATION (some 9) (some 9) (some 9)
          (some 9) 9 [("Given", "B")])
        contextSkippedProperties).Handle =
      (ContextStateContainer.mk "DH" "DH_1"
        ContextAssociation.NO_ASSOCIATION (some 9) (some 9) (some 9)
        (some 9) 9 [("Given", "B")]).Handle ∧
    (update_from_other_container
        (ContextStateContainer.mk "DH" "DH_1"
          ContextAssociation.ASSOCIATED (some 1) none (some 10) none 3
          [("Given", "A")])
        (ContextStateContainer.mk "DH" "DH_1"
          ContextAssociation.NO_ASSOCIATION (some 9) (some 9) (some 9)
          (some 9) 9 [("Given", "B")])
        contextSkippedProperties).descriptorHandle =
      (ContextStateContainer.mk "DH" "DH_1"
        ContextAssociation.NO_ASSOCIATION (some 9) (some 9) (some 9)
        (some 9) 9 [("Given", "B")]).descriptorHandle) :=
  ⟨by decide, rfl,
   c9_update_merge_excludes_engine_fields
     (ContextMdib.mk
       [ContextStateContainer.mk "DH" "DH_1"
         ContextAssociation.ASSOCIATED (some 1) none (some 10) none 3
         [("Given", "A")]]
       7 99)
     (ContextStateContainer.mk "DH" "DH_1"
       ContextAssociation.NO_ASSOCIATION (some 9) (some 9) (some 9)
       (some 9) 9 [("Given", "B")])
     (ContextStateContainer.mk "DH" "DH_1"
       ContextAssociation.ASSOCIATED (some 1) none (some 10) none 3
       [("Given", "A")])
     (by decide) rfl⟩

/-- Reduction of an Except bind over a success value. -/
theorem except_bind_ok {ε α β : Type} (a : α) (f : α → Except ε β) :
    (Except.ok (ε := ε) a >>= f) = f a := rfl

/-- C8: both generic setters assign the requested value to the target's
metric value (created when absent), set the operation's observable
current_value, and force Validity to VALID exactly when the metric's
category is SETTING or PRESETTING; for any other category the validity is
left as it was. -/
theorem c8_setter_value_and_validity {α : Type} [DecidableEq α]
    (m : MetricMdib α) (operationInstance : OperationInstance α)
    (value : α) (targetHandle : String) (state : MetricState α)
    (metricDescriptor : ProviderDescriptor)
    (htarget : get_operation_target_handle m operationInstance.handle =
      Except.ok targetHandle)
    (hstate : get_metric_state m targetHandle = Except.ok state)
    (hdescr : get_one_description m targetHandle =
      Except.ok metricDescriptor) :
    ∃ mv : MetricValue α,
      set_numeric_value m operationInstance value = Except.ok
        ({ m with states :=
            m.states.map (fun st =>
              if st.descriptorHandle == targetHandle then
                { st with metricValue := some mv }
              else st) },
         { operationInstance with currentValue := some value }) ∧
      set_string m operationInstance value = Except.ok
        ({ m with states :=
            m.states.map (fun st =>
              if st.descriptorHandle == targetHandle then
                { st with metricValue := some mv }
              else st) },
         { operationInstance with currentValue := some value }) ∧
      mv.Value = some value ∧
      ((metricDescriptor.MetricCategory = MetricCategory.SETTING ∨
        metricDescriptor.MetricCategory = MetricCategory.PRESETTING) →
        mv.Validity = some MeasurementValidity.VALID) ∧
      (¬(metricDescriptor.MetricCategory = MetricCategory.SETTING ∨
        metricDescriptor.MetricCategory = MetricCategory.PRESETTING) →
        mv.Validity =
          (match state.metricValue with
           | none => (mk_metric_value : MetricValue α)
           | some mv0 => mv0).Validity) := by
  by_cases hcat : metricDescriptor.MetricCategory = MetricCategory.SETTING
      ∨ metricDescriptor.MetricCategory = MetricCategory.PRESETTING
  · refine ⟨MetricValue.mk (some value)
      (some MeasurementValidity.VALID), ?_, ?_, rfl, fun _ => rfl,
      fun h => absurd hcat h⟩
    · simp only [set_numeric_value, htarget, except_bind_ok, hstate,
        hdescr]
      simp [hcat]
    · simp only [set_string, htarget, except_bind_ok, hstate, hdescr]
      simp [hcat]
  · refine ⟨MetricValue.mk (some value)
      (match state.metricValue with
       | none => (mk_metric_value : MetricValue α)
       | some mv0 => mv0).Validity, ?_, ?_, rfl,
      fun h => absurd h hcat, fun _ => rfl⟩
    · simp only [set_numeric_value, htarget, except_bind_ok, hstate,
        hdescr]
      simp only [hcat, if_false]
    · simp only [set_string, htarget, except_bind_ok, hstate, hdescr]
      simp only [hcat, if_false]

/-- Witness for C8 at a concrete SetValue scenario: metric M1 has category
SETTING and no metric value yet; setting 42 yields value 42 with validity
VALID. -/
theorem c8_setter_value_and_validity_witness :
    get_operation_target_handle c8SampleMdib c8SampleOperation.handle =
      Except.ok "M1" ∧
    get_metric_state c8SampleMdib "M1" = Except.ok c8SampleState ∧
    get_one_description c8SampleMdib "M1" =
      Except.ok c8SampleDescriptor ∧
    (∃ mv : MetricValue Int,
      set_numeric_value c8SampleMdib c8SampleOperation 42 = Except.ok
        ({ c8SampleMdib with states :=
            c8SampleMdib.states.map (fun st =>
              if st.descriptorHandle == "M1" then
                { st with metricValue := some mv }
              else st) },
         { c8SampleOperation with currentValue := some 42 }) ∧
      set_string c8SampleMdib c8SampleOperation 42 = Except.ok
        ({ c8SampleMdib with states :=
            c8SampleMdib.states.map (fun st =>
              if st.descriptorHandle == "M1" then
                { st with metricValue := some mv }
              else st) },
         { c8SampleOperation with currentValue := some 42 }) ∧
      mv.Value = some 42 ∧
      ((c8SampleDescriptor.MetricCategory = MetricCategory.SETTING ∨
        c8SampleDescriptor.MetricCategory = MetricCategory.PRESETTING) →
        mv.Validity = some MeasurementValidity.VALID) ∧
      (¬(c8SampleDescriptor.MetricCategory = MetricCategory.SETTING ∨
        c8SampleDescriptor.MetricCategory = MetricCategory.PRESETTING) →
        mv.Validity =
          (match c8SampleState.metricValue with
           | none => (mk_metric_value : MetricValue Int)
           | some mv0 => mv0).Validity)) :=
  ⟨rfl, rfl, rfl,
   c8_setter_value_and_validity c8SampleMdib c8SampleOperation 42 "M1"
     c8SampleState c8SampleDescriptor rfl rfl rfl⟩


/-- Every successful set_mdib returns the operation with its mdib marked
as assigned. -/
theorem set_mdib_ok_hasMdib (op : OperationDef) (m : RegMdib)
    (parentHandle : String) (p : OperationDef × RegMdib)
    (h : set_mdib op m parentHandle = Except.ok p) :
    p.1.hasMdib = true := by
  by_cases hm : op.hasMdib
  · simp [set_mdib, hm] at h
  · simp only [set_mdib] at h
    rw [if_neg hm] at h
    split at h
    · exact absurd h (by simp)
    · simp only [Except.ok.injEq] at h
      subst h
      rfl

/-- Every successful register_operation returns the operation with its
mdib marked as assigned. -/
theorem register_operation_ok_hasMdib (reg : Registry)
    (op : OperationDef) (reg2 : Registry) (op2 : OperationDef)
    (h : register_operation reg op = Except.ok (reg2, op2)) :
    op2.hasMdib = true := by
  cases hset : set_mdib op reg.mdib reg.mdsScoHandle with
  | error e =>
      have hr : register_operation reg op = Except.error e := by
        simp only [register_operation, hset]
        rfl
      rw [hr] at h
      exact absurd h (by simp)
  | ok p =>
      have hr : register_operation reg op = Except.ok
          ({ reg with
              mdib := p.2,
              registeredOperations :=
                dictInsert reg.registeredOperations op.handle p.1 },
            p.1) := by
        simp only [register_operation, hset]
        rfl
      rw [hr] at h
      simp only [Except.ok.injEq, Prod.mk.injEq] at h
      rw [← h.2]
      exact set_mdib_ok_hasMdib op reg.mdib reg.mdsScoHandle p hset

/-- C10: set_mdib on an operation whose mdib is already set raises
RuntimeError (no changed operation or mdib is produced); register_
operation therefore fails on such an operation, and in particular on any
operation object returned by an earlier successful registration; a
registration only fails through set_mdib - the duplicate-handle check of
the registry rejects nothing. -/
theorem c10_register_same_operation_twice (op : OperationDef)
    (m : RegMdib) (parentHandle : String) (reg : Registry)
    (hset : op.hasMdib = true) :
    set_mdib op m parentHandle = Except.error "Mdib is already set" ∧
    register_operation reg op = Except.error "Mdib is already set" ∧
    (∀ (reg1 : Registry) (op1 : OperationDef) (reg2 : Registry)
        (op2 : OperationDef),
      register_operation reg1 op1 = Except.ok (reg2, op2) →
      register_operation reg2 op2 =
        Except.error "Mdib is already set") ∧
    (∀ (reg0 : Registry) (op0 : OperationDef) (e : String),
      register_operation reg0 op0 = Except.error e ↔
        set_mdib op0 reg0.mdib reg0.mdsScoHandle = Except.error e) := by
  have herr : ∀ (m0 : RegMdib) (ph : String) (opx : OperationDef),
      opx.hasMdib = true →
      set_mdib opx m0 ph = Except.error "Mdib is already set" := by
    intro m0 ph opx hx
    simp [set_mdib, hx]
  have hreg : ∀ (reg0 : Registry) (opx : OperationDef),
      opx.hasMdib = true →
      register_operation reg0 opx =
        Except.error "Mdib is already set" := by
    intro reg0 opx hx
    simp only [register_operation,
      herr reg0.mdib reg0.mdsScoHandle opx hx]
    rfl
  refine ⟨herr m parentHandle op hset, hreg reg op hset, ?_, ?_⟩
  · intro reg1 op1 reg2 op2 hok
    exact hreg reg2 op2
      (register_operation_ok_hasMdib reg1 op1 reg2 op2 hok)
  · intro reg0 op0 e
    cases hset0 : set_mdib op0 reg0.mdib reg0.mdsScoHandle with
    | error e2 =>
        have hr : register_operation reg0 op0 = Except.error e2 := by
          simp only [register_operation, hset0]
          rfl
        constructor
        · intro h0
          rw [hr] at h0
          simp only [Except.error.injEq] at h0
          rw [h0]
        · intro h0
          simp only [Except.error.injEq] at h0
          rw [hr, h0]
    | ok p =>
        have hr : register_operation reg0 op0 = Except.ok
            ({ reg0 with
                mdib := p.2,
                registeredOperations :=
                  dictInsert reg0.registeredOperations op0.handle p.1 },
              p.1) := by
          simp only [register_operation, hset0]
          rfl
        constructor
        · intro h0
          rw [hr] at h0
          exact absurd h0 (by simp)
        · intro h0
          exact absurd h0 (by simp)

/-- Witness for C10: registering a fresh SetValue operation against an
mdib that holds its target descriptor succeeds; registering the returned
operation object again fails with the RuntimeError message. -/
theorem c10_register_same_operation_twice_witness :
    (OperationDef.mk "op1" "M1" "SetValueOperationDescriptor"
        "SetValueOperationState" true).hasMdib = true ∧
    (set_mdib
        (OperationDef.mk "op1" "M1" "SetValueOperationDescriptor"
          "SetValueOperationState" true)
        (RegMdib.mk [RegDescriptor.mk "M1" (some "ch1")
          "NumericMetricDescriptor" none false] [] [])
        "sco1" = Except.error "Mdib is already set" ∧
    register_operation
        (Registry.mk []
          (RegMdib.mk [RegDescriptor.mk "M1" (some "ch1")
            "NumericMetricDescriptor" none false] [] [])
          "sco1")
        (OperationDef.mk "op1" "M1" "SetValueOperationDescriptor"
          "SetValueOperationState" true) =
      Except.error "Mdib is already set" ∧
    (∀ (reg1 : Registry) (op1 : OperationDef) (reg2 : Registry)
        (op2 : OperationDef),
      register_operation reg1 op1 = Except.ok (reg2, op2) →
      register_operation reg2 op2 =
        Except.error "Mdib is already set") ∧
    (∀ (reg0 : Registry) (op0 : OperationDef) (e : String),
      register_operation reg0 op0 = Except.error e ↔
        set_mdib op0 reg0.mdib reg0.mdsScoHandle = Except.error e)) :=
  ⟨rfl,
   c10_register_same_operation_twice
     (OperationDef.mk "op1" "M1" "SetValueOperationDescriptor"
       "SetValueOperationState" true)
     (RegMdib.mk [RegDescriptor.mk "M1" (some "ch1")
       "NumericMetricDescriptor" none false] [] [])
     "sco1"
     (Registry.mk []
       (RegMdib.mk [RegDescriptor.mk "M1" (some "ch1")
         "NumericMetricDescriptor" none false] [] [])
       "sco1")
     rfl⟩

end Sdc
